import Mathlib

/-!
Shallow embedding of the `shopify2xero` synchronizer
(`src/shopify2xero/__init__.py`) and verification of its specification.

Modelling conventions:
* Remote stores (Shopify orders/customers/variants/payouts/transactions and
  Xero contacts/invoices) are gathered in an `Env` record; the read-only
  accessor methods of `Shopify2Xero` become lookups into this record.
* Money amounts (`float(discount_allocation.amount)`, transaction fees,
  payout amounts) are modelled exactly in integer hundredths (cents): the
  decimal amount strings served by the Shopify API carry at most two
  fractional digits, and parsing such a string with `float` followed by
  summation agrees with exact arithmetic on cents for all the values
  appearing in the specification (e.g. `2.50` is the cent value `250`,
  and `sum` is integer summation of cent values).
* Writes to Xero (`create_contacts`, `update_contact`, `create_invoices`)
  are recorded as an explicit `Effect` trace; log lines are recorded as a
  list of strings.  Python exceptions (`ValueError`, `KeyError`) become an
  explicit `CopyError`.
* `datetime.strptime(order.processed_at[:-3] + order.processed_at[-2:], ...)`
  is modelled as the reformatted timestamp string itself (no claim concerns
  the parsed date value).
-/

namespace Shopify2Xero

/-- A Shopify customer as used by `copy_customer` / `copy_order`. -/
structure Customer where
  id : Nat
  first_name : String
  last_name : String
  email : String
deriving DecidableEq, Repr

/-- One discount allocation on a line item or shipping line; `amount` models
`float(discount_allocation.amount)`. -/
structure DiscountAllocation where
  amount : Int
deriving DecidableEq, Repr

/-- A Shopify order line item. `variant_id` is `None` for a deleted product. -/
structure LineItem where
  variant_id : Option Nat
  name : String
  quantity : Nat
  price : String
  discount_allocations : List DiscountAllocation
deriving DecidableEq, Repr

/-- A Shopify shipping line. -/
structure ShippingLine where
  price : String
  discount_allocations : List DiscountAllocation
deriving DecidableEq, Repr

/-- A Shopify order. -/
structure Order where
  id : Nat
  order_number : Nat
  processed_at : String
  customer : Customer
  line_items : List LineItem
  shipping_lines : List ShippingLine
deriving DecidableEq, Repr

/-- A Shopify product variant: carries an id and a SKU (possibly empty). -/
structure Variant where
  id : Nat
  sku : String
deriving DecidableEq, Repr

/-- A Shopify payout. -/
structure Payout where
  id : Nat
  date : String
  amount : Int
deriving DecidableEq, Repr

/-- A Shopify payout transaction: a fee and an optional source order. -/
structure Transaction where
  source_order_id : Option Nat
  fee : Int
deriving DecidableEq, Repr

/-- A Xero contact.  `contact_id` is assigned server-side, so the contacts
built by `copy_customer` carry `none`. -/
structure Contact where
  name : String
  first_name : String
  last_name : String
  email_address : String
  is_customer : Bool
  contact_number : String
  contact_id : Option String := none
deriving DecidableEq, Repr

/-- A Xero invoice line item, as built by `copy_order`. -/
structure XeroLineItem where
  item_code : Option String := none
  description : Option String := none
  quantity : Nat
  unit_amount : String
  account_code : Option Int := none
  discount_amount : Int
deriving DecidableEq, Repr

/-- A Xero invoice, as built by `copy_order`. -/
structure Invoice where
  type : String
  contact : Contact
  line_items : List XeroLineItem
  date : String
  due_date : String
  invoice_number : String
  status : String
deriving DecidableEq, Repr

/-- A write issued against the Xero accounting API. -/
inductive Effect where
  | createContacts : Contact → Effect
  | updateContact : Option String → Contact → Effect
  | createInvoices : Invoice → Effect
deriving DecidableEq, Repr

/-- A Python exception raised by the synchronizer: `ValueError msg` or an
unguarded dictionary `KeyError` on a variant id. -/
inductive CopyError where
  | valueError : String → CopyError
  | keyError : Nat → CopyError
deriving DecidableEq, Repr

/-- The remote world the synchronizer reads from: Shopify data and the
current contents of the Xero organisation, plus the configured shipping
account code of the `Shopify2Xero` instance. -/
structure Env where
  customer_shipping_account_code : Int
  getOrder : Nat → Order
  getCustomer : Nat → Customer
  variants : List Variant
  xeroContacts : List Contact
  xeroInvoices : List String
  getPayout : Nat → Payout
  payoutsOnDate : String → List Payout
  transactionsFor : Nat → List Transaction

/-- Python `dict` lookup `m.get(k)` for a dict built from an association
list (later entries overwrite earlier ones, hence the `reverse`). -/
def dictGet {α β : Type} [BEq α] (m : List (α × β)) (k : α) : Option β :=
  (m.reverse.find? (fun p => p.1 == k)).map (fun p => p.2)

/-- Python `k in m` membership test on a dict. -/
def dictContains {α β : Type} [BEq α] (m : List (α × β)) (k : α) : Bool :=
  (dictGet m k).isSome

/-- The variant-id→SKU dict `{variant.id: variant.sku for variant in
self.get_all_shopify_variants()}`. -/
def variantMap (env : Env) : List (Nat × String) :=
  env.variants.map (fun v => (v.id, v.sku))

/-- The invoice number `f'INV-SHOPIFY-{order.order_number}'` derived in
`copy_order`. -/
def invoiceNumber (order : Order) : String :=
  "INV-SHOPIFY-" ++ toString order.order_number

/-- `get_xero_invoice`: first invoice of the organisation carrying the given
invoice number, if any (the store is modelled by its invoice numbers). -/
def get_xero_invoice (invs : List String) (n : String) : Option String :=
  invs.find? (fun x => x == n)

/-- Python `str.strip()`: remove leading and trailing whitespace. -/
def pyStrip (s : String) : String :=
  ⟨((s.data.dropWhile Char.isWhitespace).reverse.dropWhile Char.isWhitespace).reverse⟩

/-- The composed search name `f'{first_name.strip()} {last_name.strip()}'`
used in both `copy_customer`'s update search and `copy_order`'s contact
lookup. -/
def composedSearchName (c : Customer) : String :=
  pyStrip c.first_name ++ " " ++ pyStrip c.last_name

/-- The contact record `copy_customer` builds: display name is the
unstripped `f'{customer.first_name} {customer.last_name}'`, external
reference is the stringified customer id. -/
def newContact (env : Env) (customer_id : Nat) : Contact :=
  let customer := env.getCustomer customer_id
  { name := customer.first_name ++ " " ++ customer.last_name
    first_name := customer.first_name
    last_name := customer.last_name
    email_address := customer.email
    is_customer := true
    contact_number := toString customer_id }

/-- `copy_customer`: fetch the customer, optionally search an existing
contact by composed name, build the new contact, and issue an update (when
a match was found) or a create.  Returns the constructed contact and the
write trace. -/
def copy_customer (env : Env) (customer_id : Nat) (update : Bool) :
    Contact × List Effect :=
  let customer := env.getCustomer customer_id
  let existing_contact : Option Contact :=
    if update then
      env.xeroContacts.find? (fun c => c.name == composedSearchName customer)
    else none
  let new_contact := newContact env customer_id
  match existing_contact with
  | some ec => (new_contact, [Effect.updateContact ec.contact_id new_contact])
  | none => (new_contact, [Effect.createContacts new_contact])

/-- One pass of the validation loop body of `copy_order` for a single line
item: a null variant must have a deleted-product override, a non-null
variant is looked up in the SKU dict (an absent key is a `KeyError`) and
its SKU must be non-empty. -/
def validateLineItem (m : List (Nat × String)) (dpm : List (String × String))
    (li : LineItem) : Except CopyError Unit :=
  match li.variant_id with
  | none =>
    if dictContains dpm li.name then Except.ok ()
    else Except.error (CopyError.valueError
      ("Product `" ++ li.name ++ "` appears to have been deleted but is not in deleted_products_map"))
  | some vid =>
    match dictGet m vid with
    | none => Except.error (CopyError.keyError vid)
    | some sku =>
      if sku == "" then
        Except.error (CopyError.valueError ("SKU must be set in Shopify for " ++ li.name))
      else Except.ok ()

/-- The validation loop of `copy_order` over all line items, stopping at the
first raised exception. -/
def validateLineItems (m : List (Nat × String)) (dpm : List (String × String)) :
    List LineItem → Except CopyError Unit
  | [] => Except.ok ()
  | li :: rest =>
    match validateLineItem m dpm li with
    | Except.error e => Except.error e
    | Except.ok _ => validateLineItems m dpm rest

/-- The invoice line item built from an order line item:
`item_code = variant_id_to_sku_map.get(variant_id, deleted_products_map.get(name))`,
quantity, unit price, and the sum of the discount allocations. -/
def orderLineToLineItem (m : List (Nat × String)) (dpm : List (String × String))
    (li : LineItem) : XeroLineItem :=
  { item_code :=
      match li.variant_id with
      | some vid =>
        match dictGet m vid with
        | some sku => some sku
        | none => dictGet dpm li.name
      | none => dictGet dpm li.name
    quantity := li.quantity
    unit_amount := li.price
    discount_amount := (li.discount_allocations.map DiscountAllocation.amount).sum }

/-- The invoice line item built from a shipping line: fixed description
"Postage", quantity 1, the shipping price, the configured shipping account
code, and the sum of the discount allocations. -/
def shippingLineToLineItem (account_code : Int) (sl : ShippingLine) : XeroLineItem :=
  { description := some "Postage"
    quantity := 1
    unit_amount := sl.price
    account_code := some account_code
    discount_amount := (sl.discount_allocations.map DiscountAllocation.amount).sum }

/-- `order.processed_at[:-3] + order.processed_at[-2:]`: the timestamp string
handed to `strptime` (the parsed datetime is modelled by this string). -/
def processedAtFixed (s : String) : String :=
  s.dropRight 3 ++ s.takeRight 2

instance {ε α : Type} [DecidableEq ε] [DecidableEq α] : DecidableEq (Except ε α)
  | Except.ok x, Except.ok y =>
    if h : x = y then isTrue (by rw [h])
    else isFalse (by intro hc; cases hc; exact h rfl)
  | Except.ok _, Except.error _ => isFalse (by intro hc; cases hc)
  | Except.error _, Except.ok _ => isFalse (by intro hc; cases hc)
  | Except.error e, Except.error f =>
    if h : e = f then isTrue (by rw [h])
    else isFalse (by intro hc; cases hc; exact h rfl)

/-- Result of one `copy_order` call: the outcome, the Xero writes issued,
and the log lines emitted. -/
structure CopyOrderResult where
  result : Except CopyError Unit
  effects : List Effect
  logs : List String
deriving DecidableEq, Repr

/-- The contact resolution step of `copy_order`: first accounting contact
whose name equals the composed (stripped) customer name, else a contact
created via `copy_customer`'s create path (`update=False`). -/
def contactResolution (env : Env) (order : Order) : Contact × List Effect :=
  match env.xeroContacts.find? (fun c => c.name == composedSearchName order.customer) with
  | some c => (c, [])
  | none => copy_customer env order.customer.id false

/-- The debug line emitted when any line item or shipping line of the order
carries a discount allocation. -/
def discountLogs (order_id : Nat) (order : Order) : List String :=
  if (order.line_items.any (fun li => !li.discount_allocations.isEmpty))
      || (order.shipping_lines.any (fun sl => !sl.discount_allocations.isEmpty)) then
    let onum := order.order_number
    ["Order " ++ toString order_id ++ " (" ++ toString onum ++ ") has discounts"]
  else []

/-- The invoice `copy_order` submits to `create_invoices`. -/
def newInvoice (env : Env) (order : Order) (dpm : List (String × String))
    (contact : Contact) : Invoice :=
  { type := "ACCREC"
    contact := contact
    line_items :=
      order.line_items.map (orderLineToLineItem (variantMap env) dpm)
        ++ order.shipping_lines.map (shippingLineToLineItem env.customer_shipping_account_code)
    date := processedAtFixed order.processed_at
    due_date := processedAtFixed order.processed_at
    invoice_number := invoiceNumber order
    status := "AUTHORISED" }

/-- `copy_order`: fetch the order, short-circuit when the derived invoice
number already exists, build the catalog SKU dict, validate every line
item, resolve or create the contact, and create the invoice. -/
def copy_order (env : Env) (order_id : Nat)
    (deleted_products_map : List (String × String)) : CopyOrderResult :=
  let log0 := "Copying order " ++ toString order_id
  let order := env.getOrder order_id
  let invoice_number := invoiceNumber order
  match get_xero_invoice env.xeroInvoices invoice_number with
  | some _ =>
    { result := Except.ok ()
      effects := []
      logs := [log0, "Invoice " ++ invoice_number ++ " already exists"] }
  | none =>
    match validateLineItems (variantMap env) deleted_products_map order.line_items with
    | Except.error e => { result := Except.error e, effects := [], logs := [log0] }
    | Except.ok _ =>
      let contactRun := contactResolution env order
      { result := Except.ok ()
        effects :=
          contactRun.2 ++ [Effect.createInvoices (newInvoice env order deleted_products_map contactRun.1)]
        logs := [log0] ++ discountLogs order_id order ++ ["Created invoice " ++ invoice_number] }

/-- How the Xero organisation evolves when a write is applied: a created
contact joins the contact list, a created invoice's number joins the
invoice list, an update replaces the fields of the contact with the given
id. -/
def applyEffect (env : Env) : Effect → Env
  | Effect.createContacts c => { env with xeroContacts := env.xeroContacts ++ [c] }
  | Effect.updateContact cid c =>
    { env with
      xeroContacts := env.xeroContacts.map
        (fun old => if old.contact_id == cid then { c with contact_id := cid } else old) }
  | Effect.createInvoices inv =>
    { env with xeroInvoices := env.xeroInvoices ++ [inv.invoice_number] }

/-- Apply a trace of writes in order. -/
def applyEffects (env : Env) (effs : List Effect) : Env :=
  effs.foldl applyEffect env

/-- `copy_orders`: run `copy_order` on each id in turn, threading the
writes through the Xero organisation; a failure aborts the batch. -/
def copy_orders (dpm : List (String × String)) : Env → List Nat → CopyOrderResult
  | _, [] => ⟨Except.ok (), [], []⟩
  | env, oid :: rest =>
    let r := copy_order env oid dpm
    match r.result with
    | Except.error e => ⟨Except.error e, r.effects, r.logs⟩
    | Except.ok _ =>
      let rs := copy_orders dpm (applyEffects env r.effects) rest
      ⟨rs.result, r.effects ++ rs.effects, r.logs ++ rs.logs⟩

/-- The distinct non-null source order ids of a payout's transactions
(`{t.source_order_id for t in transactions if t.source_order_id is not None}`). -/
def payoutOrderIds (ts : List Transaction) : List Nat :=
  (ts.filterMap Transaction.source_order_id).dedup

/-- The summary returned by `copy_all_orders_for_payout`. -/
structure PayoutSummary where
  date : String
  payout_amount : Int
  order_numbers : List Nat
  total_fees : Int
deriving DecidableEq, Repr

/-- Result of one `copy_all_orders_for_payout` call. -/
structure PayoutRunResult where
  result : Except CopyError PayoutSummary
  effects : List Effect
  logs : List String
deriving DecidableEq, Repr

/-- `get_shopify_payout_by_date`: the unique payout on the date, a
`ValueError` when zero or several exist. -/
def get_shopify_payout_by_date (env : Env) (date : String) : Except CopyError Payout :=
  match env.payoutsOnDate date with
  | [p] => Except.ok p
  | l => Except.error (CopyError.valueError
      ("Unexpected number of payouts found on " ++ date ++ ": " ++ toString l.length))

/-- The body of `copy_all_orders_for_payout` once the payout is resolved:
fetch the transactions, copy each distinct source order, and build the
summary. -/
def runPayout (env : Env) (payout : Payout)
    (dpm : List (String × String)) : PayoutRunResult :=
  let transactions := env.transactionsFor payout.id
  let order_ids := payoutOrderIds transactions
  let r := copy_orders dpm env order_ids
  match r.result with
  | Except.error e => ⟨Except.error e, r.effects, r.logs⟩
  | Except.ok _ =>
    ⟨Except.ok
      { date := payout.date
        payout_amount := payout.amount
        order_numbers :=
          List.insertionSort (· ≤ ·)
            (order_ids.map (fun oid => (env.getOrder oid).order_number))
        total_fees := (transactions.map Transaction.fee).sum },
      r.effects, r.logs⟩

/-- `copy_all_orders_for_payout`: reject unless exactly one of
`payout_id`/`payout_date` is supplied, resolve the payout by id or by
date, and run the batch. -/
def copy_all_orders_for_payout (env : Env) (payout_id : Option Nat)
    (payout_date : Option String) (dpm : List (String × String)) : PayoutRunResult :=
  match payout_id, payout_date with
  | some _, some _ =>
    ⟨Except.error (CopyError.valueError
      "Exactly one of `payout_id` and `payout_date` must be provided"), [], []⟩
  | none, none =>
    ⟨Except.error (CopyError.valueError
      "Exactly one of `payout_id` and `payout_date` must be provided"), [], []⟩
  | some pid, none => runPayout env (env.getPayout pid) dpm
  | none, some pd =>
    match get_shopify_payout_by_date env pd with
    | Except.error e => ⟨Except.error e, [], []⟩
    | Except.ok p => runPayout env p dpm

/-- Recognizer for invoice-creation writes, used to count invoices created
by a run. -/
def isCreateInvoice : Effect → Bool
  | Effect.createInvoices _ => true
  | _ => false

/-! ### Concrete environments used to exercise the model -/

def noCustomer : Customer := ⟨0, "", "", ""⟩

def noOrder : Order := ⟨0, 0, "", noCustomer, [], []⟩

def noPayout : Payout := ⟨0, "", 0⟩

/-- A world with no Shopify data and an empty Xero organisation. -/
def baseEnv : Env :=
  { customer_shipping_account_code := 425
    getOrder := fun _ => noOrder
    getCustomer := fun _ => noCustomer
    variants := []
    xeroContacts := []
    xeroInvoices := []
    getPayout := fun _ => noPayout
    payoutsOnDate := fun _ => []
    transactionsFor := fun _ => [] }

def plainCustomer : Customer := ⟨7, "John", "Doe", "jd@example.com"⟩

def paddedCustomer : Customer := ⟨8, " John ", "Doe ", "jd@example.com"⟩

def envPlain : Env := { baseEnv with getCustomer := fun _ => plainCustomer }

def envPadded : Env := { baseEnv with getCustomer := fun _ => paddedCustomer }

/-- An order with one SKU-backed line item carrying discount allocations
2.50 and 1.00, and one shipping line. -/
def wOrder : Order :=
  { id := 1
    order_number := 42
    processed_at := "2021-01-02T03:04:05+00:00"
    customer := plainCustomer
    line_items := [⟨some 11, "Widget", 2, "5.00", [⟨250⟩, ⟨100⟩]⟩]
    shipping_lines := [⟨"3.00", []⟩] }

def envOrder : Env :=
  { baseEnv with
    getOrder := fun _ => wOrder
    getCustomer := fun _ => plainCustomer
    variants := [⟨11, "SKU-1"⟩] }

def matchingContact : Contact :=
  ⟨"John Doe", "John", "Doe", "jd@example.com", true, "7", some "c1"⟩

def envOrderContact : Env := { envOrder with xeroContacts := [matchingContact] }

/-- The invoice `copy_order` creates when run on `envOrder`. -/
def wInvoice : Invoice := newInvoice envOrder wOrder [] (newContact envOrder 7)

/-- An order whose only line item references a deleted product with no
override. -/
def badOrder : Order := { wOrder with line_items := [⟨none, "Gone", 1, "2.00", []⟩] }

def envBad : Env := { envOrder with getOrder := fun _ => badOrder }

def envDup : Env := { envBad with xeroInvoices := ["INV-SHOPIFY-42"] }

/-- An order whose only line item references a variant absent from the
catalog. -/
def unmappedOrder : Order := { wOrder with line_items := [⟨some 99, "Ghost", 1, "2.00", []⟩] }

def envUnmapped : Env := { envOrder with getOrder := fun _ => unmappedOrder, variants := [] }

def payTx : List Transaction := [⟨some 101, 120⟩, ⟨some 101, 30⟩, ⟨none, 10⟩]

def payPayout : Payout := ⟨77, "2021-02-03", 10000⟩

def envPay : Env :=
  { envOrder with getPayout := fun _ => payPayout, transactionsFor := fun _ => payTx }

def paySummary : PayoutSummary := ⟨"2021-02-03", 10000, [42], 160⟩

/-! ### Characterization lemmas -/

theorem validateLineItem_ok_iff (m : List (Nat × String)) (dpm : List (String × String))
    (li : LineItem) :
    validateLineItem m dpm li = Except.ok () ↔
      (li.variant_id = none ∧ dictContains dpm li.name = true) ∨
      (∃ v sku, li.variant_id = some v ∧ dictGet m v = some sku ∧ sku ≠ "") := by
  cases hv : li.variant_id with
  | none =>
    by_cases hc : dictContains dpm li.name
    · simp [validateLineItem, hv, hc]
    · simp [validateLineItem, hv, hc]
  | some v =>
    cases hm : dictGet m v with
    | none => simp [validateLineItem, hv, hm]
    | some sku =>
      by_cases hs : sku = ""
      · simp [validateLineItem, hv, hm, hs]
      · simp [validateLineItem, hv, hm, hs]

theorem validateLineItem_error_full {m : List (Nat × String)} {dpm : List (String × String)}
    {li : LineItem} {e : CopyError}
    (h : validateLineItem m dpm li = Except.error e) :
    (li.variant_id = none ∧ dictContains dpm li.name = false ∧
      e = CopyError.valueError
        ("Product `" ++ li.name ++ "` appears to have been deleted but is not in deleted_products_map")) ∨
    (∃ v, li.variant_id = some v ∧ dictGet m v = none ∧ e = CopyError.keyError v) ∨
    (∃ v, li.variant_id = some v ∧ dictGet m v = some "" ∧
      e = CopyError.valueError ("SKU must be set in Shopify for " ++ li.name)) := by
  cases hv : li.variant_id with
  | none =>
    by_cases hc : dictContains dpm li.name
    · simp [validateLineItem, hv, hc] at h
    · simp [validateLineItem, hv, hc] at h
      exact Or.inl ⟨rfl, by simp [hc], h.symm⟩
  | some v =>
    cases hm : dictGet m v with
    | none =>
      simp [validateLineItem, hv, hm] at h
      exact Or.inr (Or.inl ⟨v, rfl, hm, h.symm⟩)
    | some sku =>
      by_cases hs : sku = ""
      · simp [validateLineItem, hv, hm, hs] at h
        exact Or.inr (Or.inr ⟨v, rfl, by rw [hs] at hm; exact hm, h.symm⟩)
      · simp [validateLineItem, hv, hm, hs] at h

theorem validateLineItems_ok_iff (m : List (Nat × String)) (dpm : List (String × String)) :
    ∀ items : List LineItem,
      validateLineItems m dpm items = Except.ok () ↔
        ∀ li ∈ items, validateLineItem m dpm li = Except.ok ()
  | [] => by simp [validateLineItems]
  | li :: rest => by
    cases h : validateLineItem m dpm li with
    | error e =>
      simp only [validateLineItems, h]
      constructor
      · intro hc; cases hc
      · intro hall
        have := hall li (by simp)
        rw [h] at this
        cases this
    | ok u =>
      cases u
      simp only [validateLineItems, h]
      rw [validateLineItems_ok_iff m dpm rest]
      constructor
      · intro hall li' hmem
        rcases List.mem_cons.mp hmem with rfl | hmem'
        · exact h
        · exact hall li' hmem'
      · intro hall li' hmem
        exact hall li' (List.mem_cons_of_mem _ hmem)

theorem validateLineItems_error_mem {m : List (Nat × String)} {dpm : List (String × String)}
    {e : CopyError} :
    ∀ {items : List LineItem}, validateLineItems m dpm items = Except.error e →
      ∃ li ∈ items, validateLineItem m dpm li = Except.error e
  | [], h => by simp [validateLineItems] at h
  | li :: rest, h => by
    cases hli : validateLineItem m dpm li with
    | error e' =>
      simp only [validateLineItems, hli] at h
      cases h
      exact ⟨li, by simp, hli⟩
    | ok u =>
      cases u
      simp only [validateLineItems, hli] at h
      obtain ⟨li', hmem, herr⟩ := validateLineItems_error_mem h
      exact ⟨li', List.mem_cons_of_mem _ hmem, herr⟩

theorem copy_order_existing {env : Env} {oid : Nat} {dpm : List (String × String)} {s : String}
    (h : get_xero_invoice env.xeroInvoices (invoiceNumber (env.getOrder oid)) = some s) :
    copy_order env oid dpm =
      ⟨Except.ok (), [],
        ["Copying order " ++ toString oid,
         "Invoice " ++ invoiceNumber (env.getOrder oid) ++ " already exists"]⟩ := by
  simp [copy_order, h]

theorem copy_order_invalid {env : Env} {oid : Nat} {dpm : List (String × String)} {e : CopyError}
    (h1 : get_xero_invoice env.xeroInvoices (invoiceNumber (env.getOrder oid)) = none)
    (h2 : validateLineItems (variantMap env) dpm (env.getOrder oid).line_items = Except.error e) :
    copy_order env oid dpm = ⟨Except.error e, [], ["Copying order " ++ toString oid]⟩ := by
  simp [copy_order, h1, h2]

theorem copy_order_valid {env : Env} {oid : Nat} {dpm : List (String × String)}
    (h1 : get_xero_invoice env.xeroInvoices (invoiceNumber (env.getOrder oid)) = none)
    (h2 : validateLineItems (variantMap env) dpm (env.getOrder oid).line_items = Except.ok ()) :
    copy_order env oid dpm =
      ⟨Except.ok (),
        (contactResolution env (env.getOrder oid)).2
          ++ [Effect.createInvoices
                (newInvoice env (env.getOrder oid) dpm (contactResolution env (env.getOrder oid)).1)],
        ["Copying order " ++ toString oid] ++ discountLogs oid (env.getOrder oid)
          ++ ["Created invoice " ++ invoiceNumber (env.getOrder oid)]⟩ := by
  simp [copy_order, h1, h2]

theorem get_xero_invoice_append_self {invs : List String} {n : String}
    (h : get_xero_invoice invs n = none) :
    get_xero_invoice (invs ++ [n]) n = some n := by
  unfold get_xero_invoice at *
  rw [List.find?_append, h]
  simp [List.find?]

theorem copy_customer_fst (env : Env) (cid : Nat) (u : Bool) :
    (copy_customer env cid u).1 = newContact env cid := by
  simp only [copy_customer]
  split <;> rfl

theorem copy_customer_false (env : Env) (cid : Nat) :
    copy_customer env cid false =
      (newContact env cid, [Effect.createContacts (newContact env cid)]) := rfl

theorem contactResolution_cases (env : Env) (order : Order) :
    (∃ c, env.xeroContacts.find? (fun x => x.name == composedSearchName order.customer) = some c ∧
        contactResolution env order = (c, [])) ∨
    (env.xeroContacts.find? (fun x => x.name == composedSearchName order.customer) = none ∧
        contactResolution env order =
          (newContact env order.customer.id,
           [Effect.createContacts (newContact env order.customer.id)])) := by
  cases h : env.xeroContacts.find? (fun x => x.name == composedSearchName order.customer) with
  | some c => exact Or.inl ⟨c, rfl, by simp [contactResolution, h]⟩
  | none => exact Or.inr ⟨rfl, by simp [contactResolution, h, copy_customer_false]⟩

theorem contactResolution_no_invoice (env : Env) (order : Order) (inv : Invoice) :
    Effect.createInvoices inv ∉ (contactResolution env order).2 := by
  rcases contactResolution_cases env order with ⟨c, _, hcr⟩ | ⟨_, hcr⟩ <;> rw [hcr] <;> simp

theorem copy_order_createInvoices_mem {env : Env} {oid : Nat} {dpm : List (String × String)}
    {inv : Invoice}
    (h : Effect.createInvoices inv ∈ (copy_order env oid dpm).effects) :
    inv = newInvoice env (env.getOrder oid) dpm (contactResolution env (env.getOrder oid)).1 := by
  cases hfind : get_xero_invoice env.xeroInvoices (invoiceNumber (env.getOrder oid)) with
  | some s => rw [copy_order_existing hfind] at h; simp at h
  | none =>
    cases hval : validateLineItems (variantMap env) dpm (env.getOrder oid).line_items with
    | error e => rw [copy_order_invalid hfind hval] at h; simp at h
    | ok u =>
      cases u
      rw [copy_order_valid hfind hval] at h
      simp only [List.mem_append] at h
      rcases h with h | h
      · exact absurd h (contactResolution_no_invoice env (env.getOrder oid) inv)
      · simp at h
        exact h

/-! ### Claim theorems -/

/-- C10: the duplicate-invoice short-circuit precedes the catalog fetch and
line-item validation; whenever the derived invoice number matches an
existing invoice, `copy_order` returns successfully with no writes and only
the duplicate warning, for every order — even one violating the SKU or
deleted-product-override preconditions. -/
theorem duplicate_invoice_short_circuit (env : Env) (oid : Nat)
    (dpm : List (String × String)) (s : String)
    (h : get_xero_invoice env.xeroInvoices (invoiceNumber (env.getOrder oid)) = some s) :
    (copy_order env oid dpm).result = Except.ok () ∧
    (copy_order env oid dpm).effects = [] ∧
    (copy_order env oid dpm).logs =
      ["Copying order " ++ toString oid,
       "Invoice " ++ invoiceNumber (env.getOrder oid) ++ " already exists"] := by
  rw [copy_order_existing h]
  exact ⟨rfl, rfl, rfl⟩

/-- Witness for C10: in `envDup` the invoice already exists and the order
violates the deleted-product precondition, yet `copy_order` completes as a
no-op. -/
theorem duplicate_invoice_short_circuit_witness :
    get_xero_invoice envDup.xeroInvoices (invoiceNumber (envDup.getOrder 1)) =
      some "INV-SHOPIFY-42" ∧
    validateLineItems (variantMap envDup) [] (envDup.getOrder 1).line_items ≠ Except.ok () ∧
    (copy_order envDup 1 []).result = Except.ok () ∧
    (copy_order envDup 1 []).effects = [] :=
  ⟨by decide, by decide,
    (duplicate_invoice_short_circuit envDup 1 [] "INV-SHOPIFY-42" (by decide)).1,
    (duplicate_invoice_short_circuit envDup 1 [] "INV-SHOPIFY-42" (by decide)).2.1⟩

/-- C5: calling `copy_all_orders_for_payout` with both `payout_id` and
`payout_date` supplied, or with neither, fails with the exactly-one
precondition `ValueError`, independently of the remote world and with no
write issued. -/
theorem payout_requires_exactly_one (env : Env) (dpm : List (String × String)) :
    (∀ pid pd,
      copy_all_orders_for_payout env (some pid) (some pd) dpm =
        ⟨Except.error (CopyError.valueError
          "Exactly one of `payout_id` and `payout_date` must be provided"), [], []⟩) ∧
    copy_all_orders_for_payout env none none dpm =
      ⟨Except.error (CopyError.valueError
        "Exactly one of `payout_id` and `payout_date` must be provided"), [], []⟩ :=
  ⟨fun _ _ => rfl, rfl⟩

/-- C3: the invoice number derived by `copy_order` is the pure function
`"INV-SHOPIFY-" ++ order_number` of the order, and every invoice the call
creates carries exactly this number, so recomputation yields the same
string. -/
theorem invoice_number_deterministic (env : Env) (oid : Nat) (dpm : List (String × String)) :
    invoiceNumber (env.getOrder oid) =
      "INV-SHOPIFY-" ++ toString (env.getOrder oid).order_number ∧
    ∀ inv, Effect.createInvoices inv ∈ (copy_order env oid dpm).effects →
      inv.invoice_number = invoiceNumber (env.getOrder oid) := by
  refine ⟨rfl, fun inv h => ?_⟩
  rw [copy_order_createInvoices_mem h]
  rfl

/-- Witness for C3: the invoice created for order 1 in `envOrder` carries
the number INV-SHOPIFY-42. -/
theorem invoice_number_deterministic_witness :
    Effect.createInvoices wInvoice ∈ (copy_order envOrder 1 []).effects ∧
    wInvoice.invoice_number = invoiceNumber (envOrder.getOrder 1) ∧
    wInvoice.invoice_number = "INV-SHOPIFY-42" :=
  ⟨by decide,
    (invoice_number_deterministic envOrder 1 []).2 wInvoice (by decide),
    by decide⟩

/-- C6: every invoice line item built by `copy_order` (one per order line
item, one per shipping line) carries `discount_amount` equal to the sum of
that line's discount allocation amounts, an empty allocation sequence
yielding 0. -/
theorem discount_amount_is_sum (env : Env) (oid : Nat) (dpm : List (String × String)) :
    (∀ inv, Effect.createInvoices inv ∈ (copy_order env oid dpm).effects →
      inv.line_items =
        (env.getOrder oid).line_items.map (orderLineToLineItem (variantMap env) dpm)
          ++ (env.getOrder oid).shipping_lines.map
              (shippingLineToLineItem env.customer_shipping_account_code)) ∧
    (∀ li, (orderLineToLineItem (variantMap env) dpm li).discount_amount =
      (li.discount_allocations.map DiscountAllocation.amount).sum) ∧
    (∀ sl, (shippingLineToLineItem env.customer_shipping_account_code sl).discount_amount =
      (sl.discount_allocations.map DiscountAllocation.amount).sum) ∧
    (∀ li : LineItem, li.discount_allocations = [] →
      (orderLineToLineItem (variantMap env) dpm li).discount_amount = 0) := by
  refine ⟨fun inv h => ?_, fun li => rfl, fun sl => rfl, fun li h => ?_⟩
  · rw [copy_order_createInvoices_mem h]
    rfl
  · simp [orderLineToLineItem, h]

/-- Witness for C6: allocations 2.50 and 1.00 (cents 250 and 100) yield
discount amount 3.50 (cents 350) on the created invoice's first line. -/
theorem discount_amount_is_sum_witness :
    Effect.createInvoices wInvoice ∈ (copy_order envOrder 1 []).effects ∧
    wInvoice.line_items =
      wOrder.line_items.map (orderLineToLineItem (variantMap envOrder) [])
        ++ wOrder.shipping_lines.map
            (shippingLineToLineItem envOrder.customer_shipping_account_code) ∧
    (orderLineToLineItem (variantMap envOrder) []
      ⟨some 11, "Widget", 2, "5.00", [⟨250⟩, ⟨100⟩]⟩).discount_amount = 350 ∧
    (shippingLineToLineItem envOrder.customer_shipping_account_code
      ⟨"3.00", []⟩).discount_amount = 0 :=
  ⟨by decide,
    (discount_amount_is_sum envOrder 1 []).1 wInvoice (by decide),
    by decide, by decide⟩

/-- C7: when an accounting contact with the exact composed (stripped)
customer name exists, `copy_order` uses the first match and issues no
contact create; a contact create is issued only when no match exists, and
then it is exactly `copy_customer`'s create path (`update=False`). -/
theorem contact_reuse (env : Env) (oid : Nat) (dpm : List (String × String)) :
    (∀ c, env.xeroContacts.find?
        (fun x => x.name == composedSearchName (env.getOrder oid).customer) = some c →
      (∀ nc, Effect.createContacts nc ∉ (copy_order env oid dpm).effects) ∧
      (∀ inv, Effect.createInvoices inv ∈ (copy_order env oid dpm).effects →
        inv.contact = c)) ∧
    (∀ nc, Effect.createContacts nc ∈ (copy_order env oid dpm).effects →
      env.xeroContacts.find?
        (fun x => x.name == composedSearchName (env.getOrder oid).customer) = none ∧
      copy_customer env (env.getOrder oid).customer.id false =
        (nc, [Effect.createContacts nc])) := by
  constructor
  · intro c hc
    have hcr : contactResolution env (env.getOrder oid) = (c, []) := by
      simp [contactResolution, hc]
    cases hfind : get_xero_invoice env.xeroInvoices (invoiceNumber (env.getOrder oid)) with
    | some s =>
      rw [copy_order_existing hfind]
      exact ⟨fun nc => by simp, fun inv h => by simp at h⟩
    | none =>
      cases hval : validateLineItems (variantMap env) dpm (env.getOrder oid).line_items with
      | error e =>
        rw [copy_order_invalid hfind hval]
        exact ⟨fun nc => by simp, fun inv h => by simp at h⟩
      | ok u =>
        cases u
        rw [copy_order_valid hfind hval, hcr]
        constructor
        · intro nc
          simp
        · intro inv h
          simp at h
          rw [h]
          rfl
  · intro nc hmem
    cases hfind : get_xero_invoice env.xeroInvoices (invoiceNumber (env.getOrder oid)) with
    | some s =>
      rw [copy_order_existing hfind] at hmem
      simp at hmem
    | none =>
      cases hval : validateLineItems (variantMap env) dpm (env.getOrder oid).line_items with
      | error e =>
        rw [copy_order_invalid hfind hval] at hmem
        simp at hmem
      | ok u =>
        cases u
        rw [copy_order_valid hfind hval] at hmem
        rcases contactResolution_cases env (env.getOrder oid) with ⟨c, hfc, hcr⟩ | ⟨hfc, hcr⟩
        · rw [hcr] at hmem
          simp at hmem
        · rw [hcr] at hmem
          simp at hmem
          subst hmem
          exact ⟨hfc, copy_customer_false env _⟩

/-- Witness for C7: with `matchingContact` already present, the run issues
no contact create and the created invoice references it. -/
theorem contact_reuse_witness :
    envOrderContact.xeroContacts.find?
      (fun x => x.name == composedSearchName (envOrderContact.getOrder 1).customer) =
        some matchingContact ∧
    (∀ nc, Effect.createContacts nc ∉ (copy_order envOrderContact 1 []).effects) ∧
    Effect.createInvoices (newInvoice envOrderContact wOrder [] matchingContact) ∈
      (copy_order envOrderContact 1 []).effects ∧
    (newInvoice envOrderContact wOrder [] matchingContact).contact = matchingContact :=
  ⟨by decide,
    ((contact_reuse envOrderContact 1 []).1 matchingContact (by decide)).1,
    by decide,
    ((contact_reuse envOrderContact 1 []).1 matchingContact (by decide)).2
      (newInvoice envOrderContact wOrder [] matchingContact) (by decide)⟩

/-- C1: a successful `copy_order` leaves the organisation holding the
invoice, so a second call for the same order id short-circuits: it logs
the duplicate warning and issues no write, and when no invoice pre-existed
the two calls together create exactly one invoice. -/
theorem copy_order_idempotent (env : Env) (oid : Nat) (dpm : List (String × String))
    (h : (copy_order env oid dpm).result = Except.ok ()) :
    copy_order (applyEffects env (copy_order env oid dpm).effects) oid dpm =
      ⟨Except.ok (), [],
        ["Copying order " ++ toString oid,
         "Invoice " ++ invoiceNumber (env.getOrder oid) ++ " already exists"]⟩ ∧
    (get_xero_invoice env.xeroInvoices (invoiceNumber (env.getOrder oid)) = none →
      (copy_order env oid dpm).effects.countP isCreateInvoice = 1) := by
  cases hfind : get_xero_invoice env.xeroInvoices (invoiceNumber (env.getOrder oid)) with
  | some s =>
    rw [copy_order_existing hfind]
    refine ⟨?_, fun hnone => ?_⟩
    · exact copy_order_existing hfind
    · exact Option.noConfusion hnone
  | none =>
    cases hval : validateLineItems (variantMap env) dpm (env.getOrder oid).line_items with
    | error e =>
      rw [copy_order_invalid hfind hval] at h
      simp at h
    | ok u =>
      cases u
      rw [copy_order_valid hfind hval]
      rcases contactResolution_cases env (env.getOrder oid) with ⟨c, hfc, hcr⟩ | ⟨hfc, hcr⟩ <;>
        rw [hcr] <;>
        refine ⟨copy_order_existing (get_xero_invoice_append_self hfind), fun _ => rfl⟩

/-- Witness for C1: the first run on `envOrder` creates the invoice; the
rerun on the updated organisation issues no write, and exactly one invoice
was created. -/
theorem copy_order_idempotent_witness :
    (copy_order envOrder 1 []).result = Except.ok () ∧
    (copy_order (applyEffects envOrder (copy_order envOrder 1 []).effects) 1 []).effects = [] ∧
    (copy_order envOrder 1 []).effects.countP isCreateInvoice = 1 :=
  ⟨by decide,
    by rw [(copy_order_idempotent envOrder 1 [] (by decide)).1],
    (copy_order_idempotent envOrder 1 [] (by decide)).2 (by decide)⟩

/-- C2: on the validation path (invoice not yet present, every non-null
variant id known to the catalog), an order containing a line item with a
null variant and no override, or a non-null variant mapped to the empty
SKU, makes `copy_order` fail with a `ValueError` before any write: no
contact create and no invoice create is issued. -/
theorem sku_and_override_preconditions (env : Env) (oid : Nat) (dpm : List (String × String))
    (h1 : get_xero_invoice env.xeroInvoices (invoiceNumber (env.getOrder oid)) = none)
    (h2 : ∀ li ∈ (env.getOrder oid).line_items, ∀ v, li.variant_id = some v →
      dictGet (variantMap env) v ≠ none)
    (h3 : ∃ li ∈ (env.getOrder oid).line_items,
      (li.variant_id = none ∧ dictContains dpm li.name = false) ∨
      ∃ v, li.variant_id = some v ∧ dictGet (variantMap env) v = some "") :
    ∃ msg, copy_order env oid dpm =
      ⟨Except.error (CopyError.valueError msg), [], ["Copying order " ++ toString oid]⟩ := by
  obtain ⟨li, hmem, hbad⟩ := h3
  cases hval : validateLineItems (variantMap env) dpm (env.getOrder oid).line_items with
  | ok u =>
    cases u
    exfalso
    have hok := (validateLineItems_ok_iff _ _ _).mp hval li hmem
    rcases (validateLineItem_ok_iff _ _ _).mp hok with ⟨hn, hcont⟩ | ⟨v, sku, hv, hm, hsku⟩
    · rcases hbad with ⟨_, hc⟩ | ⟨v, hv, _⟩
      · rw [hcont] at hc
        cases hc
      · rw [hn] at hv
        cases hv
    · rcases hbad with ⟨hn, _⟩ | ⟨v', hv', hm'⟩
      · rw [hn] at hv
        cases hv
      · rw [hv] at hv'
        injection hv' with hvv
        subst hvv
        rw [hm] at hm'
        injection hm' with hs
        exact hsku hs
  | error e =>
    obtain ⟨li', hmem', herr⟩ := validateLineItems_error_mem hval
    rcases validateLineItem_error_full herr with ⟨_, _, he⟩ | ⟨v, hv, hm, _⟩ | ⟨v, hv, _, he⟩
    · subst he
      exact ⟨_, copy_order_invalid h1 hval⟩
    · exact absurd hm (h2 li' hmem' v hv)
    · subst he
      exact ⟨_, copy_order_invalid h1 hval⟩

/-- Witness for C2: in `envBad` the only line item references a deleted
product with no override; the call fails with a ValueError and issues no
write. -/
theorem sku_and_override_preconditions_witness :
    (∃ msg, copy_order envBad 1 [] =
      ⟨Except.error (CopyError.valueError msg), [], ["Copying order " ++ toString 1]⟩) ∧
    (copy_order envBad 1 []).effects = [] :=
  ⟨sku_and_override_preconditions envBad 1 [] (by decide)
    (fun li hmem v hv => by
      rw [List.mem_singleton.mp hmem] at hv
      cases hv)
    ⟨⟨none, "Gone", 1, "2.00", []⟩, by decide, Or.inl ⟨rfl, by decide⟩⟩,
   by decide⟩

/-- C8: a line item whose non-null variant id is absent from the catalog
map makes `copy_order`'s validation fail with an unguarded `KeyError` (not
the documented `ValueError`) before any write, provided no earlier line
item triggers a `ValueError`; and when every non-null variant id of the
order appears in the catalog map, the lookup never raises a `KeyError`. -/
theorem unmapped_variant_keyError (env : Env) (oid : Nat) (dpm : List (String × String)) :
    (get_xero_invoice env.xeroInvoices (invoiceNumber (env.getOrder oid)) = none →
      (∀ li ∈ (env.getOrder oid).line_items,
        (li.variant_id = none → dictContains dpm li.name = true) ∧
        (∀ v, li.variant_id = some v → dictGet (variantMap env) v ≠ some "")) →
      (∃ li ∈ (env.getOrder oid).line_items, ∃ v, li.variant_id = some v ∧
        dictGet (variantMap env) v = none) →
      ∃ v, copy_order env oid dpm =
        ⟨Except.error (CopyError.keyError v), [], ["Copying order " ++ toString oid]⟩) ∧
    ((∀ li ∈ (env.getOrder oid).line_items, ∀ v, li.variant_id = some v →
        dictGet (variantMap env) v ≠ none) →
      ∀ v, (copy_order env oid dpm).result ≠ Except.error (CopyError.keyError v)) := by
  constructor
  · intro h1 hgood hex
    obtain ⟨li, hmem, v, hv, hnone⟩ := hex
    cases hval : validateLineItems (variantMap env) dpm (env.getOrder oid).line_items with
    | ok u =>
      cases u
      exfalso
      have hok := (validateLineItems_ok_iff _ _ _).mp hval li hmem
      rcases (validateLineItem_ok_iff _ _ _).mp hok with ⟨hn, _⟩ | ⟨v', sku, hv', hm', _⟩
      · rw [hn] at hv
        cases hv
      · rw [hv] at hv'
        injection hv' with hvv
        subst hvv
        rw [hnone] at hm'
        cases hm'
    | error e =>
      obtain ⟨li', hmem', herr⟩ := validateLineItems_error_mem hval
      rcases validateLineItem_error_full herr with ⟨hn, hc, _⟩ | ⟨v', hv', _, he⟩ | ⟨v', hv', hm', _⟩
      · rw [(hgood li' hmem').1 hn] at hc
        cases hc
      · subst he
        exact ⟨v', copy_order_invalid h1 hval⟩
      · exact absurd hm' ((hgood li' hmem').2 v' hv')
  · intro hall v hres
    cases hfind : get_xero_invoice env.xeroInvoices (invoiceNumber (env.getOrder oid)) with
    | some s =>
      rw [copy_order_existing hfind] at hres
      simp at hres
    | none =>
      cases hval : validateLineItems (variantMap env) dpm (env.getOrder oid).line_items with
      | ok u =>
        cases u
        rw [copy_order_valid hfind hval] at hres
        simp at hres
      | error e =>
        rw [copy_order_invalid hfind hval] at hres
        simp at hres
        subst hres
        obtain ⟨li', hmem', herr⟩ := validateLineItems_error_mem hval
        rcases validateLineItem_error_full herr with ⟨_, _, he⟩ | ⟨v', hv', hm', he⟩ | ⟨_, _, _, he⟩
        · exact CopyError.noConfusion he
        · injection he with hvv
          subst hvv
          exact hall li' hmem' _ hv' hm'
        · exact CopyError.noConfusion he

/-- Witness for C8: in `envUnmapped` the only line item's variant id 99 is
absent from the (empty) catalog, producing a KeyError with no write; in
`envOrder` every variant id is mapped and the run does not fail with a
KeyError. -/
theorem unmapped_variant_keyError_witness :
    (∃ v, copy_order envUnmapped 1 [] =
      ⟨Except.error (CopyError.keyError v), [], ["Copying order " ++ toString 1]⟩) ∧
    (copy_order envOrder 1 []).result ≠ Except.error (CopyError.keyError 11) :=
  ⟨(unmapped_variant_keyError envUnmapped 1 []).1 (by decide)
    (fun li hmem => by
      rw [List.mem_singleton.mp hmem]
      refine ⟨fun h => Option.noConfusion h, fun v hv => ?_⟩
      injection hv with h
      subst h
      decide)
    ⟨⟨some 99, "Ghost", 1, "2.00", []⟩, by decide, 99, rfl, by decide⟩,
   (unmapped_variant_keyError envOrder 1 []).2
    (fun li hmem v hv => by
      rw [List.mem_singleton.mp hmem] at hv
      injection hv with h
      subst h
      decide)
    11⟩

/-- C4: the payout batch copies exactly the distinct non-null source order
ids of the payout's transactions (duplicates collapsed, nulls skipped) —
the id list handed to the order loop is duplicate-free and contains exactly
those ids, and the batch's writes are exactly the loop's writes — and a
successful run returns `total_fees` equal to the sum of the fees of all
transactions, including those with a null source order. -/
theorem payout_batch (env : Env) (pid : Nat) (dpm : List (String × String)) :
    (payoutOrderIds (env.transactionsFor (env.getPayout pid).id)).Nodup ∧
    (∀ oid, oid ∈ payoutOrderIds (env.transactionsFor (env.getPayout pid).id) ↔
      ∃ t ∈ env.transactionsFor (env.getPayout pid).id, t.source_order_id = some oid) ∧
    (copy_all_orders_for_payout env (some pid) none dpm).effects =
      (copy_orders dpm env (payoutOrderIds (env.transactionsFor (env.getPayout pid).id))).effects ∧
    ∀ s, (copy_all_orders_for_payout env (some pid) none dpm).result = Except.ok s →
      s.total_fees = ((env.transactionsFor (env.getPayout pid).id).map Transaction.fee).sum := by
  refine ⟨List.nodup_dedup _, fun oid => ?_, ?_, fun s hs => ?_⟩
  · simp [payoutOrderIds, List.mem_dedup, List.mem_filterMap]
  · show (runPayout env (env.getPayout pid) dpm).effects = _
    cases hr : (copy_orders dpm env
        (payoutOrderIds (env.transactionsFor (env.getPayout pid).id))).result with
    | error e => simp [runPayout, hr]
    | ok u => cases u; simp [runPayout, hr]
  · revert hs
    show (runPayout env (env.getPayout pid) dpm).result = Except.ok s → _
    cases hr : (copy_orders dpm env
        (payoutOrderIds (env.transactionsFor (env.getPayout pid).id))).result with
    | error e =>
      simp only [runPayout, hr]
      intro hs
      cases hs
    | ok u =>
      cases u
      simp only [runPayout, hr]
      intro hs
      injection hs with hsum
      rw [← hsum]

/-- Witness for C4: transactions with fees 1.20, 0.30, 0.10 (cents) and
source orders 101, 101, null yield order 101 processed once and total
fees 1.60 (cents 160). -/
theorem payout_batch_witness :
    (copy_all_orders_for_payout envPay (some 1) none []).result = Except.ok paySummary ∧
    paySummary.total_fees =
      ((envPay.transactionsFor (envPay.getPayout 1).id).map Transaction.fee).sum ∧
    payoutOrderIds (envPay.transactionsFor (envPay.getPayout 1).id) = [101] ∧
    paySummary.total_fees = 160 :=
  ⟨by decide,
    (payout_batch envPay 1 []).2.2.2 paySummary (by decide),
    by decide, by decide⟩

/-- C9: `copy_customer` builds the created contact's display name from the
unstripped names while the exact-name searches (in `copy_customer`'s
update path and `copy_order`'s contact lookup) use the stripped composed
name; the two coincide for whitespace-free names, and for the
whitespace-padded customer of `envPadded` they differ, so the contact just
created is not found by the exact-name search. -/
theorem contact_name_vs_search_key (env : Env) (cid : Nat) (u : Bool)
    (h1 : pyStrip (env.getCustomer cid).first_name = (env.getCustomer cid).first_name)
    (h2 : pyStrip (env.getCustomer cid).last_name = (env.getCustomer cid).last_name) :
    (copy_customer env cid u).1.name =
      (env.getCustomer cid).first_name ++ " " ++ (env.getCustomer cid).last_name ∧
    composedSearchName (env.getCustomer cid) =
      pyStrip (env.getCustomer cid).first_name ++ " " ++ pyStrip (env.getCustomer cid).last_name ∧
    (copy_customer env cid u).1.name = composedSearchName (env.getCustomer cid) ∧
    (copy_customer envPadded 8 true).1.name ≠ composedSearchName (envPadded.getCustomer 8) ∧
    [(copy_customer envPadded 8 true).1].find?
      (fun c => c.name == composedSearchName (envPadded.getCustomer 8)) = none := by
  refine ⟨?_, rfl, ?_, by decide, by decide⟩
  · rw [copy_customer_fst]
    rfl
  · rw [copy_customer_fst]
    show (env.getCustomer cid).first_name ++ " " ++ (env.getCustomer cid).last_name =
      pyStrip (env.getCustomer cid).first_name ++ " " ++ pyStrip (env.getCustomer cid).last_name
    rw [h1, h2]

/-- Witness for C9 at the whitespace-free customer of `envPlain`. -/
theorem contact_name_vs_search_key_witness :
    pyStrip (envPlain.getCustomer 7).first_name = (envPlain.getCustomer 7).first_name ∧
    pyStrip (envPlain.getCustomer 7).last_name = (envPlain.getCustomer 7).last_name ∧
    (copy_customer envPlain 7 false).1.name = composedSearchName (envPlain.getCustomer 7) :=
  ⟨by decide, by decide,
    (contact_name_vs_search_key envPlain 7 false (by decide) (by decide)).2.2.1⟩

end Shopify2Xero
